import Mathlib

/-!
Verification development for the networking-debug-container repository.

The two Python sources are shallowly embedded:
  * `MultiNic`  models `inter_node_tests/multi_nic_ib_write_bw/multi_nic_ib_write_bw.py`
  * `Pingmesh`  models `inter_node_tests/pingmesh/pingmesh.py`

External effects (kubectl executions, JSON decoding of remote artifacts,
thread-pool completion order) are passed in as explicit oracle arguments, so
every definition is a pure, executable function of the source logic plus the
oracles.  Machine floats of the sources are modelled over `ℚ`.
-/

/-- Lookup in the model of a Python `dict` (association list with unique
keys). -/
def assocGet {α β : Type} [DecidableEq α] : List (α × β) → α → Option β
  | [], _ => none
  | (k0, v) :: rest, k => if k0 = k then some v else assocGet rest k

namespace MultiNic

/-- Default ib_write_bw port (`BASE_PORT = 18515`). -/
def BASE_PORT : Nat := 18515

/-- `TestPair` dataclass: configuration for a single src-dst test pair,
with the endpoint fields discovered at runtime. -/
structure TestPair where
  src_pod : String
  src_hca : String
  src_gpu : Option String := none
  src_gpu_type : String := "cuda"
  dst_pod : String := ""
  dst_hca : String := ""
  dst_gpu : Option String := none
  dst_gpu_type : String := "cuda"
  src_iface : String := ""
  src_ip : String := ""
  dst_iface : String := ""
  dst_ip : String := ""
  port : Nat := BASE_PORT
  src_numa : Int := 0
  dst_numa : Int := 0
deriving DecidableEq, Repr

/-- `TestResult` dataclass: result from a single ib_write_bw test. -/
structure TestResult where
  pair_idx : Nat
  src_pod : String
  src_hca : String
  dst_pod : String
  dst_hca : String
  bw_avg_gbps : ℚ := 0
  bw_peak_gbps : Option ℚ := none
  reverse_bw_avg_gbps : ℚ := 0
  reverse_bw_peak_gbps : Option ℚ := none
  success : Bool := false
  error_msg : String := ""
deriving DecidableEq, Repr

/-- Lookup in the model of a Python `dict[str, int]`. -/
def dictGet (m : List (String × Nat)) (k : String) : Option Nat :=
  assocGet m k

/-- Update in the model of a Python `dict[str, int]`. -/
def dictSet : List (String × Nat) → String → Nat → List (String × Nat)
  | [], k, v => [(k, v)]
  | (k0, v0) :: rest, k, v =>
    if k0 = k then (k0, v) :: rest else (k0, v0) :: dictSet rest k v

/-- Record update used by `assign_ports` (`pair.port = ...`). -/
def setPort (p : TestPair) (n : Nat) : TestPair := { p with port := n }

/-- Loop body of `assign_ports`: walks the pair list carrying the
`dst_pod_port_map` dict; the first time a `dst_pod` is seen it maps to
`BASE_PORT`, afterwards the stored port is incremented, and the pair
receives the current map value. -/
def assignPortsGo (m : List (String × Nat)) : List TestPair → List TestPair
  | [] => []
  | p :: rest =>
    let port :=
      match dictGet m p.dst_pod with
      | none => BASE_PORT
      | some q => q + 1
    setPort p port :: assignPortsGo (dictSet m p.dst_pod port) rest

/-- `assign_ports(pairs)`: assign unique port numbers to each pair based on
destination pod (the Python mutates in place; the model returns the list). -/
def assign_ports (pairs : List TestPair) : List TestPair :=
  assignPortsGo [] pairs

/-- Number of pairs in `l` whose `dst_pod` equals `d`. -/
def countDst (l : List TestPair) (d : String) : Nat :=
  (l.filter (fun p => decide (p.dst_pod = d))).length

/-- `run_ib_client` with the remote executions abstracted: `clientRes` is the
outcome of the ib_write_bw client command, `catRes` of `cat json_file`, and
`rmRes` of the `rm -f json_file` cleanup (whose outcome the source discards).
Returns `(success, json_output, error_msg)`. -/
def run_ib_client (clientRes : Bool × String) (catRes : Bool × String)
    (rmRes : Bool × String) : Bool × String × String :=
  if !clientRes.1 then (false, "", clientRes.2)
  else
    -- retrieve the JSON result file; clean up (result of `rm` ignored)
    let _ := rmRes
    if catRes.1 then (true, catRes.2, "")
    else (false, "", "Failed to retrieve JSON results: " ++ catRes.2)

/-- Model of a decoded Python JSON value (`json.loads` result). -/
inductive Json where
  | null : Json
  | bool : Bool → Json
  | num : ℚ → Json
  | str : String → Json
  | arr : List Json → Json
  | obj : List (String × Json) → Json

/-- `dict.get(k, default)` on a decoded JSON object. -/
def jsonGet (kvs : List (String × Json)) (k : String) (default : Json) : Json :=
  match kvs.lookup k with
  | some v => v
  | none => default

/-- Python `float(x)` on a JSON value: `none` models a raised
`ValueError`/`TypeError`.  Numbers convert; booleans convert (1/0); `null`,
arrays and objects raise.  A string field is treated as raising (as a
non-numeric string does in Python); ib_write_bw emits its bandwidth fields
as JSON numbers, and the claims over this model quantify only over
number-valued, absent, or raising fields, so the numeric-string conversion
case never arises. -/
def pyFloat : Json → Option ℚ
  | .num q => some q
  | .bool b => some (if b then 1 else 0)
  | _ => none

/-- `parse_ib_json_result(json_str, include_peak)`.  The `json.loads` step is
abstracted: the argument is `none` when decoding raised `JSONDecodeError`
(caught, yielding `(0.0, None)`), otherwise the decoded value.  A non-object
where the source calls `.get` raises `AttributeError`, which the `except`
clause of the source does NOT catch — modelled as `.error`. -/
def parse_ib_json_result (parsed : Option Json) (include_peak : Bool) :
    Except String (ℚ × Option ℚ) :=
  match parsed with
  | none => .ok (0, none)
  | some data =>
    match data with
    | .obj kvs =>
      match jsonGet kvs "results" (.obj []) with
      | .obj rkvs =>
        match pyFloat (jsonGet rkvs "BW_average" (.num 0)) with
        | none => .ok (0, none)
        | some bw_avg =>
          if include_peak then
            match pyFloat (jsonGet rkvs "BW_peak" (.num 0)) with
            | none => .ok (0, none)
            | some bw_peak => .ok (bw_avg, some bw_peak)
          else .ok (bw_avg, none)
      | _ => .error "AttributeError"
    | _ => .error "AttributeError"

/-- Outcome of a client future, as seen by `future.result()` inside the
collection loop of `run_multi_nic_test`: either the triple returned by
`run_ib_client`, or a raised exception message. -/
inductive ClientOutcome where
  | ok : Bool → String → String → ClientOutcome
  | exn : String → ClientOutcome

/-- Body of the `as_completed` collection loop of `run_multi_nic_test`
(lines 447-488): builds the one `TestResult` appended for a completed pair.
`loads` abstracts `json.loads` (`none` = `JSONDecodeError`); an uncaught
error from `parse_ib_json_result` is absorbed by the `except Exception`
clause into a failed result. -/
def buildResult (loads : String → Option Json) (include_peak : Bool)
    (idx : Nat) (pair : TestPair) : ClientOutcome → TestResult
  | .exn e =>
    { pair_idx := idx, src_pod := pair.src_pod, src_hca := pair.src_hca,
      dst_pod := pair.dst_pod, dst_hca := pair.dst_hca, error_msg := e }
  | .ok success json_output error_msg =>
    let base : TestResult :=
      { pair_idx := idx, src_pod := pair.src_pod, src_hca := pair.src_hca,
        dst_pod := pair.dst_pod, dst_hca := pair.dst_hca }
    if success && json_output ≠ "" then
      match parse_ib_json_result (loads json_output) include_peak with
      | .ok (bw_avg, bw_peak) =>
        { base with bw_avg_gbps := bw_avg, bw_peak_gbps := bw_peak, success := true }
      | .error e => { base with error_msg := e }
    else { base with error_msg := error_msg }

/-- The pairs for which a client future is actually submitted: a server was
started (step 1 skips pairs with empty `dst_ip`) and the client loop skips
the same pairs (`if not pair.dst_ip or server_procs[i] is None`). -/
def launchedPairs (pairs : List TestPair) : List (Nat × TestPair) :=
  pairs.enum.filter (fun ip => decide (ip.2.dst_ip ≠ ""))

/-- `run_multi_nic_test` result collection: the futures complete in an
arbitrary order given by `delivered` (one entry per launched pair, carrying
its `ClientOutcome`); each completion appends exactly one `TestResult`, and
the final list is sorted by `pair_idx` (`results.sort(key=...)`). -/
def run_multi_nic_test (loads : String → Option Json) (include_peak : Bool)
    (delivered : List ((Nat × TestPair) × ClientOutcome)) : List TestResult :=
  (delivered.map (fun d => buildResult loads include_peak d.1.1 d.1.2 d.2)).mergeSort
    (fun a b => decide (a.pair_idx ≤ b.pair_idx))

/-- `successful_tests` of the reporters: the results with `success` set. -/
def successfulTests (results : List TestResult) : List TestResult :=
  results.filter (fun r => r.success)

/-- `total_avg_bw`: sum of `bw_avg_gbps` over successful results. -/
def totalAvgBw (results : List TestResult) : ℚ :=
  ((successfulTests results).map (fun r => r.bw_avg_gbps)).sum

/-- `per_nic_avg_bw_gbps` of `output_json_results`: average over successful
results, `0` when none succeeded. -/
def perNicAvgBw (results : List TestResult) : ℚ :=
  if (successfulTests results).length = 0 then 0
  else totalAvgBw results / (successfulTests results).length

/-- `has_failures = any(not r.success for r in results)` in `main`. -/
def bwHasFailures (results : List TestResult) : Bool :=
  results.any (fun r => !r.success)

/-- `sys.exit(1 if has_failures else 0)` in `main`. -/
def bwExitCode (results : List TestResult) : Nat :=
  if bwHasFailures results then 1 else 0

/-- Per-pair resolution oracle for `discover_endpoints`: outcomes of
`find_interface_for_hca` / `get_interface_ip` on both sides (`none` models
lookup failure) and the `get_numa_node_for_hca` values (always total, the
source defaults them to 0). -/
structure Resolution where
  src_iface : Option String := none
  src_ip : Option String := none
  dst_iface : Option String := none
  dst_ip : Option String := none
  src_numa : Int := 0
  dst_numa : Int := 0

/-- One iteration of the `discover_endpoints` loop for one pair: returns
the updated pair and whether this pair fully resolved (the source sets
`all_success = False` and `continue`s on each failing step, keeping the
fields already assigned). -/
def discoverPair (tos : Option Int) (p : TestPair) (r : Resolution) :
    TestPair × Bool :=
  let dstSteps := fun (p : TestPair) =>
    match r.dst_iface with
    | none => (p, false)
    | some di =>
      let p := { p with dst_iface := di }
      match r.dst_ip with
      | none => (p, false)
      | some ip =>
        ({ p with dst_ip := ip, src_numa := r.src_numa, dst_numa := r.dst_numa },
          true)
  match tos with
  | none => dstSteps p
  | some _ =>
    match r.src_iface with
    | none => (p, false)
    | some si =>
      let p := { p with src_iface := si }
      match r.src_ip with
      | none => (p, false)
      | some sip => dstSteps { p with src_ip := sip }

/-- The enumerated discovery loop over all pairs, accumulating `all_success`
(conjunction of the per-pair outcomes); `res` is the resolution oracle
indexed by pair position. -/
def discoverGo (tos : Option Int) (res : Nat → Resolution) :
    Nat → List TestPair → List TestPair × Bool
  | _, [] => ([], true)
  | i, p :: ps =>
    let (p1, ok) := discoverPair tos p (res i)
    let (ps1, oks) := discoverGo tos res (i + 1) ps
    (p1 :: ps1, ok && oks)

/-- `discover_endpoints(namespace, pairs, console, tos)`: first calls
`assign_ports(pairs)`, then resolves every pair, returning the updated pairs
and `all_success`. -/
def discover_endpoints (tos : Option Int) (pairs : List TestPair)
    (res : Nat → Resolution) : List TestPair × Bool :=
  (discoverGo tos res 0 (assign_ports pairs))

/-- One entry of the `test_pairs` list of the configuration file. -/
structure RawTestPair where
  src_pod : String
  src_hca : String
  src_gpu : Option String := none
  src_gpu_type : Option String := none
  dst_pod : String
  dst_hca : String
  dst_gpu : Option String := none
  dst_gpu_type : Option String := none
deriving DecidableEq, Repr

/-- The decoded configuration dict handed to `load_config` (file reading and
JSON decoding happen before the validated logic; a field is `none` when the
key is absent from the dict). -/
structure RawBwConfig where
  ns : Option String := none
  test_pairs : Option (List RawTestPair) := none
  duration : Option Int := none
  num_iters : Option Int := none
  msg_size : Option Int := none
  num_qps : Option Int := none
  bi_directional : Option Bool := none
  use_hugepages : Option Bool := none
  tos : Option Int := none

/-- The validated configuration produced by `load_config`. -/
structure BwConfig where
  ns : String
  test_pairs : List RawTestPair
  duration : Option Int
  num_iters : Option Int
  msg_size : Int
  num_qps : Int
  bi_directional : Bool
  use_hugepages : Bool
  tos : Option Int

/-- `load_config`: required-field checks, the duration/num_iters mutual
exclusion, the duration-mode default (`config['duration'] = 10`) and the
remaining `setdefault` calls. -/
def load_config (c : RawBwConfig) : Except String BwConfig :=
  match c.ns with
  | none => .error "Missing required field 'namespace' in config file"
  | some ns =>
    match c.test_pairs with
    | none => .error "Missing required field 'test_pairs' in config file"
    | some tps =>
      if tps.isEmpty then .error "'test_pairs' list cannot be empty"
      else if c.duration.isSome && c.num_iters.isSome then
        .error "'duration' and 'num_iters' are mutually exclusive - specify only one"
      else
        let dur := if !c.duration.isSome && !c.num_iters.isSome then some 10
                   else c.duration
        .ok { ns := ns, test_pairs := tps, duration := dur,
              num_iters := c.num_iters,
              msg_size := c.msg_size.getD 1048576,
              num_qps := c.num_qps.getD 4,
              bi_directional := c.bi_directional.getD false,
              use_hugepages := c.use_hugepages.getD false,
              tos := c.tos }

/-- `TestPair(...)` construction in `main` from a `test_pairs` entry. -/
def mkPair (tp : RawTestPair) : TestPair :=
  { src_pod := tp.src_pod, src_hca := tp.src_hca, src_gpu := tp.src_gpu,
    src_gpu_type := tp.src_gpu_type.getD "cuda",
    dst_pod := tp.dst_pod, dst_hca := tp.dst_hca, dst_gpu := tp.dst_gpu,
    dst_gpu_type := tp.dst_gpu_type.getD "cuda" }

/-- Observable events of `main` of multi_nic_ib_write_bw.py, in program
order. -/
inductive BwEv where
  | configFailed : BwEv
  | discovered : Bool → BwEv
  | probed : List Nat → BwEv
  | reported : List TestResult → BwEv
  | exited : Nat → BwEv
deriving DecidableEq

/-- Control flow of `main`: load the configuration (a `ValueError` exits 1
before anything else), discover endpoints (`sys.exit(1)` when
`discover_endpoints` returned `False`, before any probing), then run the
tests on the discovered pairs, emit the report (in either output mode) and
exit by `has_failures`.  `delivered` must pair each launched `(idx, pair)`
with its client outcome; it is a function of the discovered pairs so that
the trace stays a total function. -/
def bwMain (raw : RawBwConfig) (res : Nat → Resolution)
    (loads : String → Option Json)
    (deliver : List TestPair → List ((Nat × TestPair) × ClientOutcome)) :
    List BwEv :=
  match load_config raw with
  | .error _ => [.configFailed, .exited 1]
  | .ok cfg =>
    let pairs := cfg.test_pairs.map mkPair
    let disc := discover_endpoints cfg.tos pairs res
    if disc.2 then
      let results := run_multi_nic_test loads cfg.num_iters.isSome (deliver disc.1)
      [.discovered true, .probed ((launchedPairs disc.1).map (fun ip => ip.1)),
        .reported results, .exited (bwExitCode results)]
    else [.discovered false, .exited 1]

end MultiNic

namespace Pingmesh

/-- `PingResult` dataclass: result of a single ping test between two NICs. -/
structure PingResult where
  src_node : String
  src_iface : String
  src_ip : String
  dst_node : String
  dst_iface : String
  dst_ip : String
  success : Bool
  error_msg : Option String := none
deriving DecidableEq, Repr

/-- `NodePairResult` dataclass: aggregated tally for one unordered node
pair. -/
structure NodePairResult where
  src_node : String
  dst_node : String
  total_pairs : Nat := 0
  successful_pairs : Nat := 0
  failed_tests : List PingResult := []
deriving DecidableEq, Repr

/-- Default of the `retries` parameter of `run_ping_test`. -/
def defaultRetries : Nat := 1

/-- Attempt loop of `run_ping_test`: `oracle i` is the outcome of the
`run_kubectl_command` ping on attempt number `i` (0-based).  Returns
`((success, output), attemptsMade)`; the attempt count is an observer added
to state the retry-budget bound, `run_ping_test` itself projects it away.
`fuel` counts the remaining loop iterations (`range(retries + 1)` from
`attempt`), `last` carries `last_output`. -/
def runPingGo (oracle : Nat → Bool × String) :
    Nat → Nat → String → (Bool × String) × Nat
  | 0, _, last => ((false, last), 0)
  | fuel + 1, attempt, _ =>
    if (oracle attempt).1 then ((true, (oracle attempt).2), 1)
    else
      -- time.sleep(backoff_ms / 1000.0) between attempts: no result effect
      let r := runPingGo oracle fuel (attempt + 1) (oracle attempt).2
      (r.1, r.2 + 1)

/-- `run_ping_test(..., retries=1, backoff_ms=500)` result. -/
def run_ping_test (oracle : Nat → Bool × String) (retries : Nat := defaultRetries) :
    Bool × String :=
  (runPingGo oracle (retries + 1) 0 "").1

/-- Number of remote ping executions `run_ping_test` performs. -/
def runPingAttempts (oracle : Nat → Bool × String) (retries : Nat := defaultRetries) :
    Nat :=
  (runPingGo oracle (retries + 1) 0 "").2

/-- `itertools.combinations(entities, 2)`: all unordered pairs in list
order. -/
def combinations2 : List String → List (String × String)
  | [] => []
  | a :: rest => rest.map (fun b => (a, b)) ++ combinations2 rest

/-- Initialization of `results`: one zero tally per entity pair
(`results[(entity_a, entity_b)] = NodePairResult(...)`). -/
def initResults (entities : List String) :
    List ((String × String) × NodePairResult) :=
  (combinations2 entities).map (fun ab =>
    (ab, { src_node := ab.1, dst_node := ab.2 }))

/-- One entry of `ping_tasks`. -/
structure PingTask where
  entity_a : String
  entity_b : String
  src_iface : String
  dst_iface : String
  src_ip : String
  dst_ip : String
deriving DecidableEq, Repr

/-- Task-list construction: for each entity pair, the cross product of the
resolved `(iface, ip)` lists of the two sides (`ips e` models
`entity_interface_ips.get(e, {}).items()` in insertion order). -/
def pingTasks (entities : List String) (ips : String → List (String × String)) :
    List PingTask :=
  (combinations2 entities).flatMap (fun ab =>
    (ips ab.1).flatMap (fun ia =>
      (ips ab.2).map (fun ib =>
        { entity_a := ab.1, entity_b := ab.2, src_iface := ia.1,
          dst_iface := ib.1, src_ip := ia.2, dst_ip := ib.2 })))

/-- Key of the tally a task accumulates into. -/
def taskKey (t : PingTask) : String × String := (t.entity_a, t.entity_b)

/-- Association-list update of the `results` dict at `k` (every key the
source indexes is present, having been initialized up front). -/
def updateResults (rs : List ((String × String) × NodePairResult))
    (k : String × String) (f : NodePairResult → NodePairResult) :
    List ((String × String) × NodePairResult) :=
  rs.map (fun kv => if kv.1 = k then (kv.1, f kv.2) else kv)

/-- Outcome of one completed sub-probe future: the `(success, output)` of
`run_ping_test`, or a raised exception message. -/
inductive TaskOutcome where
  | done : Bool → String → TaskOutcome
  | exn : String → TaskOutcome
deriving DecidableEq, Repr

/-- Body of the `as_completed` loop of `run_pingmesh_tests`: always
increment `total_pairs`; on success increment `successful_pairs`; on failure
or exception append a `PingResult` to `failed_tests` (failure output
truncated to 200 chars, empty output becoming "Unknown error"). -/
def applyCompletion (rs : List ((String × String) × NodePairResult))
    (t : PingTask) (o : TaskOutcome) :
    List ((String × String) × NodePairResult) :=
  updateResults rs (taskKey t) (fun r =>
    let r := { r with total_pairs := r.total_pairs + 1 }
    match o with
    | .done true _ => { r with successful_pairs := r.successful_pairs + 1 }
    | .done false out =>
      { r with failed_tests := r.failed_tests ++
          [{ src_node := t.entity_a, src_iface := t.src_iface,
             src_ip := t.src_ip, dst_node := t.entity_b,
             dst_iface := t.dst_iface, dst_ip := t.dst_ip, success := false,
             error_msg := some (if out = "" then "Unknown error"
                                else out.take 200) }] }
    | .exn e =>
      { r with failed_tests := r.failed_tests ++
          [{ src_node := t.entity_a, src_iface := t.src_iface,
             src_ip := t.src_ip, dst_node := t.entity_b,
             dst_iface := t.dst_iface, dst_ip := t.dst_ip, success := false,
             error_msg := some e }] })

/-- `run_pingmesh_tests`: initialize a zero tally for every entity pair,
then accumulate the sub-probe completions (`completions` lists the futures
in their arbitrary completion order, each with its outcome). -/
def run_pingmesh_tests (entities : List String)
    (completions : List (PingTask × TaskOutcome)) :
    List ((String × String) × NodePairResult) :=
  completions.foldl (fun rs c => applyCompletion rs c.1 c.2)
    (initResults entities)

/-- `get_pair_result`: check both orderings, first match wins (a dataclass
instance is always truthy, so Python `or` is `Option` choice here). -/
def get_pair_result (rs : List ((String × String) × NodePairResult))
    (a b : String) : Option NodePairResult :=
  match assocGet rs (a, b) with
  | some r => some r
  | none => assocGet rs (b, a)

/-- One cell of `print_results_matrix` for row `a`, column `b`: the rendered
text and its style. -/
def matrixCell (rs : List ((String × String) × NodePairResult))
    (a b : String) : String × String :=
  if a = b then ("-", "dim")
  else
    match get_pair_result rs a b with
    | some r =>
      let cell := toString r.successful_pairs ++ "/" ++ toString r.total_pairs
      let style :=
        if r.total_pairs = 0 then "dim"
        else if r.successful_pairs = r.total_pairs then "bold green"
        else if 0 < r.successful_pairs then "bold yellow"
        else "bold red"
      (cell, style)
    | none => ("N/A", "dim")

/-- The fully/partially/disconnected classification loop of
`print_summary`: tallies with `total_pairs == 0` fall in no class. -/
def summaryCounts (rs : List NodePairResult) : Nat × Nat × Nat :=
  rs.foldl (fun c r =>
    if 0 < r.total_pairs then
      if r.successful_pairs = r.total_pairs then (c.1 + 1, c.2.1, c.2.2)
      else if 0 < r.successful_pairs then (c.1, c.2.1 + 1, c.2.2)
      else (c.1, c.2.1, c.2.2 + 1)
    else c) (0, 0, 0)

/-- `pct = (total_success / total_pairs) * 100` of `print_summary`
(float division modelled exactly over `ℚ`). -/
def summaryPct (total_success total_pairs : Nat) : ℚ :=
  ((total_success : ℚ) / (total_pairs : ℚ)) * 100

/-- Numeric value displayed by `f"{pct:.4f}"` (before zero-stripping):
Python float formatting rounds to the nearest 4-decimal value.  The double
rounding error (about 1e-14 here) cannot move a value that is 1e-5 away
from the decision boundary, so exact rational rounding is faithful. -/
def fmtRounded4 (q : ℚ) : ℚ := (round (q * 10000) : ℤ) / 10000

/-- Numeric value that truncation to four decimals (the behavior the
adjacent source comment claims: "truncate don't round") would display. -/
def fmtTruncated4 (q : ℚ) : ℚ := (⌊q * 10000⌋ : ℤ) / 10000

/-- `has_failures` of `main` (pingmesh.py lines 584-590). -/
def pmHasFailures (rs : List NodePairResult) : Bool :=
  (rs.filter (fun r => decide (0 < r.total_pairs))).any
    (fun r => decide (r.successful_pairs < r.total_pairs))

/-- `sys.exit(1 if has_failures else 0)` of pingmesh `main`. -/
def pmExitCode (rs : List NodePairResult) : Nat :=
  if pmHasFailures rs then 1 else 0

/-- Observable tail events of pingmesh `main` after the tests ran. -/
inductive PmEv where
  | matrixPrinted : List NodePairResult → PmEv
  | summaryPrinted : List NodePairResult → PmEv
  | detailsPrinted : PmEv
  | exited : Nat → PmEv
deriving DecidableEq

/-- Program-order tail of pingmesh `main`: matrix, summary and failure
details are printed, then the process exits by `has_failures`. -/
def pmMainTail (rs : List NodePairResult) : List PmEv :=
  [.matrixPrinted rs, .summaryPrinted rs, .detailsPrinted,
    .exited (pmExitCode rs)]

end Pingmesh

/-- Observable tail events of multi_nic `main` after the tests ran. -/
inductive BwTailEv where
  | reported : List MultiNic.TestResult → BwTailEv
  | exited : Nat → BwTailEv
deriving DecidableEq

/-- Program-order tail of multi_nic `main`: the report is emitted (in either
output mode) before `sys.exit(1 if has_failures else 0)`. -/
def bwMainTail (rs : List MultiNic.TestResult) : List BwTailEv :=
  [.reported rs, .exited (MultiNic.bwExitCode rs)]

/-- Sample pair 1 (concrete inputs for witnesses). -/
def pairW1 : MultiNic.TestPair :=
  { src_pod := "pod1", src_hca := "mlx5_0",
    dst_pod := "pod3", dst_hca := "mlx5_0" }

/-- Sample pair 2: same destination pod as `pairW1`. -/
def pairW2 : MultiNic.TestPair :=
  { src_pod := "pod2", src_hca := "mlx5_1",
    dst_pod := "pod3", dst_hca := "mlx5_1" }

/-- Sample pair 3: a different destination pod. -/
def pairW3 : MultiNic.TestPair :=
  { src_pod := "pod1", src_hca := "mlx5_2",
    dst_pod := "pod4", dst_hca := "mlx5_0" }

/-- `pairW1` after a successful endpoint discovery. -/
def pairWd1 : MultiNic.TestPair :=
  { pairW1 with dst_iface := "eth1", dst_ip := "10.0.0.1" }

/-- `pairW3` after a successful endpoint discovery. -/
def pairWd3 : MultiNic.TestPair :=
  { pairW3 with dst_iface := "eth2", dst_ip := "10.0.0.2" }

/-- Sample mesh tally with every sub-probe successful. -/
def npW : Pingmesh.NodePairResult :=
  { src_node := "nodeA", dst_node := "nodeB", total_pairs := 2,
    successful_pairs := 2 }

/-- Sample ping oracle: every attempt fails with output "timeout". -/
def oracW : Nat → Bool × String := fun _ => (false, "timeout")

/-- Sample raw `test_pairs` entry 1. -/
def rtpW1 : MultiNic.RawTestPair :=
  { src_pod := "pod1", src_hca := "mlx5_0", dst_pod := "pod3",
    dst_hca := "mlx5_0" }

/-- Sample raw `test_pairs` entry 2. -/
def rtpW3 : MultiNic.RawTestPair :=
  { src_pod := "pod1", src_hca := "mlx5_2", dst_pod := "pod4",
    dst_hca := "mlx5_0" }

/-- Sample raw configuration holding `rtpW1` and `rtpW3`, neither duration
nor iteration count given. -/
def rawW : MultiNic.RawBwConfig :=
  { ns := some "debug", test_pairs := some [rtpW1, rtpW3] }

/-- Resolution oracle that fails the first pair (no destination interface)
and resolves the second. -/
def resW : Nat → MultiNic.Resolution := fun i =>
  if i = 0 then {}
  else { dst_iface := some "eth0", dst_ip := some "10.0.0.5" }

/-- `rawW` with both `duration` and `num_iters` specified. -/
def rawBoth : MultiNic.RawBwConfig :=
  { rawW with duration := some 5, num_iters := some 1000 }

/-- The validated configuration `load_config` produces from `rawW`. -/
def cfgW : MultiNic.BwConfig :=
  { ns := "debug", test_pairs := [rtpW1, rtpW3], duration := some 10,
    num_iters := none, msg_size := 1048576, num_qps := 4,
    bi_directional := false, use_hugepages := false, tos := none }

namespace MultiNic

theorem dictGet_dictSet (m : List (String × Nat)) (k : String) (v : Nat)
    (d : String) :
    dictGet (dictSet m k v) d = if k = d then some v else dictGet m d := by
  induction m with
  | nil =>
    by_cases h : k = d <;> simp [dictGet, dictSet, assocGet, h]
  | cons kv rest ih =>
    obtain ⟨k0, v0⟩ := kv
    by_cases h0 : k0 = k
    · subst h0
      by_cases h : k0 = d <;> simp [dictGet, dictSet, assocGet, h]
    · by_cases h : k0 = d
      · subst h
        have hkd : k ≠ k0 := fun hh => h0 hh.symm
        simp [dictGet, dictSet, assocGet, h0, hkd]
      · simp only [dictGet, dictSet, assocGet, if_neg h0, if_neg h] at ih ⊢
        exact ih

theorem countDst_nil (d : String) : countDst [] d = 0 := rfl

theorem countDst_cons (p : TestPair) (l : List TestPair) (d : String) :
    countDst (p :: l) d =
      (if p.dst_pod = d then 1 else 0) + countDst l d := by
  by_cases h : p.dst_pod = d <;>
    simp [countDst, List.filter_cons, h, Nat.add_comm]

theorem countDst_append (l1 l2 : List TestPair) (d : String) :
    countDst (l1 ++ l2) d = countDst l1 d + countDst l2 d := by
  simp [countDst, List.filter_append]

theorem assignPortsGo_getElem? (remaining : List TestPair) :
    ∀ (m : List (String × Nat)) (processed : List TestPair),
      (∀ d, dictGet m d =
        if countDst processed d = 0 then none
        else some (BASE_PORT + countDst processed d - 1)) →
      ∀ i : Nat,
        (assignPortsGo m remaining)[i]? =
          (remaining[i]?).map (fun p =>
            setPort p (BASE_PORT + countDst (processed ++ remaining.take i) p.dst_pod)) := by
  induction remaining with
  | nil => intro m processed _ i; simp [assignPortsGo]
  | cons p rest ih =>
    intro m processed hm i
    have hport :
        (match dictGet m p.dst_pod with
          | none => BASE_PORT
          | some q => q + 1) = BASE_PORT + countDst processed p.dst_pod := by
      rw [hm p.dst_pod]
      by_cases h0 : countDst processed p.dst_pod = 0
      · rw [if_pos h0, h0]
        rfl
      · rw [if_neg h0]
        show BASE_PORT + countDst processed p.dst_pod - 1 + 1 = _
        omega
    match i with
    | 0 =>
      simp only [assignPortsGo, List.getElem?_cons_zero, List.take_zero,
        List.append_nil, Option.map_some']
      rw [hport]
    | i + 1 =>
      simp only [assignPortsGo, List.getElem?_cons_succ, List.take_succ_cons]
      have hm' : ∀ d, dictGet (dictSet m p.dst_pod
            (match dictGet m p.dst_pod with
              | none => BASE_PORT
              | some q => q + 1)) d =
          if countDst (processed ++ [p]) d = 0 then none
          else some (BASE_PORT + countDst (processed ++ [p]) d - 1) := by
        intro d
        rw [dictGet_dictSet, countDst_append, countDst_cons, countDst_nil]
        by_cases hd : p.dst_pod = d
        · subst hd
          rw [if_pos rfl, hport, if_pos rfl]
          have h1 : countDst processed p.dst_pod + (1 + 0) ≠ 0 := by omega
          rw [if_neg h1]
          simp only [Option.some.injEq]
          omega
        · rw [if_neg hd, if_neg hd, hm d]
          simp
      have hih := ih (dictSet m p.dst_pod
          (match dictGet m p.dst_pod with
            | none => BASE_PORT
            | some q => q + 1)) (processed ++ [p]) hm' i
      rw [hih]
      have happ : (processed ++ [p]) ++ rest.take i =
          processed ++ (p :: rest.take i) := by
        simp
      rw [happ]

theorem assign_ports_getElem? (pairs : List TestPair) (i : Nat) :
    (assign_ports pairs)[i]? =
      (pairs[i]?).map (fun p =>
        setPort p (BASE_PORT + countDst (pairs.take i) p.dst_pod)) := by
  have h0 : ∀ d, dictGet [] d =
      if countDst ([] : List TestPair) d = 0 then none
      else some (BASE_PORT + countDst [] d - 1) := by
    intro d; simp [dictGet, assocGet, countDst_nil]
  simpa using assignPortsGo_getElem? pairs [] [] h0 i

theorem countDst_take_lt (pairs : List TestPair) (i j : Nat) (p : TestPair)
    (hij : i < j) (hp : pairs[i]? = some p) :
    countDst (pairs.take i) p.dst_pod < countDst (pairs.take j) p.dst_pod := by
  have hsucc : countDst (pairs.take (i + 1)) p.dst_pod =
      countDst (pairs.take i) p.dst_pod + 1 := by
    rw [List.take_succ, countDst_append, hp]
    simp [countDst_cons, countDst_nil]
  have hmono : countDst (pairs.take (i + 1)) p.dst_pod ≤
      countDst (pairs.take j) p.dst_pod := by
    have heq : pairs.take (i + 1) = (pairs.take j).take (i + 1) := by
      rw [List.take_take, Nat.min_eq_left hij]
    rw [heq]
    exact Nat.le_of_lt_succ (Nat.lt_succ_of_le
      (List.Sublist.length_le
        (List.Sublist.filter _ (List.take_sublist _ _))))
  omega

end MultiNic

/-- C1: `assign_ports` gives the first pair naming a destination pod the base
port 18515 and each later pair with that destination pod the next
consecutive port, in declaration order (part 1: the port of the pair at
position `i` is `BASE_PORT` plus the number of earlier pairs with the same
destination pod, all other fields unchanged); hence ports are unique and
strictly increasing among pairs sharing a destination pod (part 2), while
pairs with different destination pods may repeat port numbers (part 3). -/
theorem claim_C1_assign_ports :
    (∀ (pairs : List MultiNic.TestPair) (i : Nat) (p : MultiNic.TestPair),
      pairs[i]? = some p →
      (MultiNic.assign_ports pairs)[i]? =
        some (MultiNic.setPort p
          (MultiNic.BASE_PORT + MultiNic.countDst (pairs.take i) p.dst_pod)))
  ∧ (∀ (pairs : List MultiNic.TestPair) (i j : Nat) (p q p1 q1 : MultiNic.TestPair),
      i < j → pairs[i]? = some p → pairs[j]? = some q →
      p.dst_pod = q.dst_pod →
      (MultiNic.assign_ports pairs)[i]? = some p1 →
      (MultiNic.assign_ports pairs)[j]? = some q1 →
      p1.port < q1.port)
  ∧ (∃ (pairs : List MultiNic.TestPair) (i j : Nat) (p1 q1 : MultiNic.TestPair),
      i ≠ j ∧ (MultiNic.assign_ports pairs)[i]? = some p1 ∧
      (MultiNic.assign_ports pairs)[j]? = some q1 ∧
      p1.dst_pod ≠ q1.dst_pod ∧ p1.port = q1.port) := by
  refine ⟨?_, ?_, ?_⟩
  · intro pairs i p hp
    rw [MultiNic.assign_ports_getElem?, hp]
    rfl
  · intro pairs i j p q p1 q1 hij hp hq hdst hp1 hq1
    rw [MultiNic.assign_ports_getElem?, hp] at hp1
    rw [MultiNic.assign_ports_getElem?, hq] at hq1
    simp only [Option.map_some', Option.some.injEq] at hp1 hq1
    have hlt := MultiNic.countDst_take_lt pairs i j p hij hp
    rw [hdst] at hlt
    have hports : p1.port =
        MultiNic.BASE_PORT + MultiNic.countDst (pairs.take i) p.dst_pod := by
      rw [← hp1]; rfl
    have hqorts : q1.port =
        MultiNic.BASE_PORT + MultiNic.countDst (pairs.take j) q.dst_pod := by
      rw [← hq1]; rfl

    rw [hports, hqorts, hdst]
    omega
  · refine ⟨[pairW1, pairW3], 0, 1,
      MultiNic.setPort pairW1 MultiNic.BASE_PORT,
      MultiNic.setPort pairW3 MultiNic.BASE_PORT, by decide, ?_, ?_, by decide, rfl⟩
    · rw [MultiNic.assign_ports_getElem?]
      rfl
    · rw [MultiNic.assign_ports_getElem?]
      rfl

/-- Witness for C1: on the concrete list `[pairW1, pairW2, pairW3]` (first
two share destination pod "pod3"), the pair at position 1 receives port
18516 = BASE_PORT + 1, and position 0 has a smaller port than position 1. -/
theorem claim_C1_assign_ports_witness :
    (MultiNic.assign_ports [pairW1, pairW2, pairW3])[1]? =
      some (MultiNic.setPort pairW2
        (MultiNic.BASE_PORT +
          MultiNic.countDst ([pairW1, pairW2, pairW3].take 1) pairW2.dst_pod))
    ∧ (MultiNic.setPort pairW1 18515).port < (MultiNic.setPort pairW2 18516).port := by
  constructor
  · exact claim_C1_assign_ports.1 [pairW1, pairW2, pairW3] 1 pairW2 rfl
  · exact claim_C1_assign_ports.2.1 [pairW1, pairW2, pairW3] 0 1 pairW1 pairW2
      (MultiNic.setPort pairW1 18515) (MultiNic.setPort pairW2 18516)
      (by decide) rfl rfl rfl
      (by rw [MultiNic.assign_ports_getElem?]; rfl)
      (by rw [MultiNic.assign_ports_getElem?]; rfl)




namespace MultiNic

theorem buildResult_pair_idx (loads : String → Option Json) (ip : Bool)
    (idx : Nat) (pair : TestPair) (o : ClientOutcome) :
    (buildResult loads ip idx pair o).pair_idx = idx := by
  cases o with
  | exn e => rfl
  | ok s j e =>
    simp only [buildResult]
    split
    · split <;> rfl
    · rfl

theorem launchedPairs_fst_nodup (pairs : List TestPair) :
    ((launchedPairs pairs).map Prod.fst).Nodup := by
  have hsub : List.Sublist ((launchedPairs pairs).map Prod.fst)
      (pairs.enum.map Prod.fst) :=
    List.Sublist.map Prod.fst (List.filter_sublist _)
  rw [List.enum_map_fst] at hsub
  exact List.Nodup.sublist hsub (List.nodup_range _)

end MultiNic

/-- C2: whatever the completion order, `run_multi_nic_test` returns the
results sorted in ascending `pair_idx` order, with exactly one result per
launched pair: the multiset of returned `pair_idx` values equals the
launched index set, which has no duplicates. -/
theorem claim_C2_sorted_complete
    (loads : String → Option MultiNic.Json) (ip : Bool)
    (pairs : List MultiNic.TestPair)
    (delivered : List ((Nat × MultiNic.TestPair) × MultiNic.ClientOutcome))
    (h : List.Perm (delivered.map Prod.fst) (MultiNic.launchedPairs pairs)) :
    List.Sorted (fun a b => a.pair_idx ≤ b.pair_idx)
        (MultiNic.run_multi_nic_test loads ip delivered)
  ∧ List.Perm ((MultiNic.run_multi_nic_test loads ip delivered).map
        (fun r => r.pair_idx)) ((MultiNic.launchedPairs pairs).map Prod.fst)
  ∧ ((MultiNic.launchedPairs pairs).map Prod.fst).Nodup := by
  refine ⟨?_, ?_, MultiNic.launchedPairs_fst_nodup pairs⟩
  · have hs := @List.sorted_mergeSort MultiNic.TestResult
      (fun a b => decide (a.pair_idx ≤ b.pair_idx))
      (fun a b c hab hbc => by
        simp only [decide_eq_true_eq] at hab hbc ⊢; omega)
      (fun a b => by
        simp only [Bool.or_eq_true, decide_eq_true_eq]; omega)
      (delivered.map (fun d =>
        MultiNic.buildResult loads ip d.1.1 d.1.2 d.2))
    exact List.Pairwise.imp (fun hab => by
      simpa only [decide_eq_true_eq] using hab) hs
  · have hperm : List.Perm (MultiNic.run_multi_nic_test loads ip delivered)
        (delivered.map (fun d =>
          MultiNic.buildResult loads ip d.1.1 d.1.2 d.2)) :=
      List.mergeSort_perm _ _
    have h1 : List.Perm ((MultiNic.run_multi_nic_test loads ip delivered).map
        (fun r => r.pair_idx))
        ((delivered.map (fun d =>
          MultiNic.buildResult loads ip d.1.1 d.1.2 d.2)).map
          (fun r => r.pair_idx)) := List.Perm.map _ hperm
    have h2 : (delivered.map (fun d =>
          MultiNic.buildResult loads ip d.1.1 d.1.2 d.2)).map
          (fun r => r.pair_idx) = (delivered.map Prod.fst).map Prod.fst := by
      simp only [List.map_map]
      exact List.map_congr_left (fun d _ => by
        simp [MultiNic.buildResult_pair_idx])
    rw [h2] at h1
    exact h1.trans (List.Perm.map Prod.fst h)

/-- Witness for C2: two launched pairs delivered in reversed completion
order still yield a sorted, duplicate-free result list. -/
theorem claim_C2_sorted_complete_witness :
    List.Sorted (fun a b : MultiNic.TestResult => a.pair_idx ≤ b.pair_idx)
        (MultiNic.run_multi_nic_test (fun _ => none) false
          [((2, pairWd3), .ok true "raw" ""), ((0, pairWd1), .exn "boom")])
  ∧ List.Perm ((MultiNic.run_multi_nic_test (fun _ => none) false
        [((2, pairWd3), .ok true "raw" ""), ((0, pairWd1), .exn "boom")]).map
        (fun r => r.pair_idx))
      ((MultiNic.launchedPairs [pairWd1, pairW2, pairWd3]).map Prod.fst)
  ∧ ((MultiNic.launchedPairs [pairWd1, pairW2, pairWd3]).map Prod.fst).Nodup :=
  claim_C2_sorted_complete (fun _ => none) false [pairWd1, pairW2, pairWd3]
    [((2, pairWd3), .ok true "raw" ""), ((0, pairWd1), .exn "boom")]
    (by decide)

/-- C3: the process exit code is zero iff every probe succeeded — throughput
mode: every result has `success`; mesh mode: every target pair with at least
one attempted sub-probe has `successful_pairs = total_pairs` (tallies always
satisfy `successful ≤ total`, taken as a hypothesis here and established by
the accumulator) — and in both `main`s the full report events precede the
exit event. -/
theorem claim_C3_exit_code (rs : List MultiNic.TestResult)
    (ps : List Pingmesh.NodePairResult)
    (hps : ∀ p ∈ ps, p.successful_pairs ≤ p.total_pairs) :
    (MultiNic.bwExitCode rs = 0 ↔ ∀ r ∈ rs, r.success = true)
  ∧ (Pingmesh.pmExitCode ps = 0 ↔
      ∀ p ∈ ps, 0 < p.total_pairs → p.successful_pairs = p.total_pairs)
  ∧ (∃ i j : Nat, i < j ∧ (bwMainTail rs)[i]? = some (.reported rs)
      ∧ (bwMainTail rs)[j]? = some (.exited (MultiNic.bwExitCode rs)))
  ∧ (∃ i j : Nat, i < j ∧
      (Pingmesh.pmMainTail ps)[i]? = some (.summaryPrinted ps)
      ∧ (Pingmesh.pmMainTail ps)[j]? =
          some (.exited (Pingmesh.pmExitCode ps))) := by
  refine ⟨?_, ?_, ⟨0, 1, by omega, rfl, rfl⟩, ⟨1, 3, by omega, rfl, rfl⟩⟩
  · unfold MultiNic.bwExitCode MultiNic.bwHasFailures
    by_cases h : rs.any (fun r => !r.success) = true
    · rw [if_pos h]
      obtain ⟨r, hr, hneg⟩ := List.any_eq_true.mp h
      rw [Bool.not_eq_true'] at hneg
      constructor
      · intro h10; exact absurd h10 one_ne_zero
      · intro hall
        rw [hall r hr] at hneg
        exact absurd hneg (by simp)
    · rw [if_neg h]
      rw [List.any_eq_true, not_exists] at h
      constructor
      · intro _ r hr
        by_contra hns
        rw [Bool.not_eq_true] at hns
        exact h r ⟨hr, by rw [hns]; rfl⟩
      · intro _; rfl
  · unfold Pingmesh.pmExitCode Pingmesh.pmHasFailures
    by_cases h : (ps.filter (fun r => decide (0 < r.total_pairs))).any
        (fun r => decide (r.successful_pairs < r.total_pairs)) = true
    · rw [if_pos h]
      obtain ⟨p, hp, hlt⟩ := List.any_eq_true.mp h
      obtain ⟨hp0, htot⟩ := List.mem_filter.mp hp
      rw [decide_eq_true_eq] at hlt htot
      constructor
      · intro h10; exact absurd h10 one_ne_zero
      · intro hall
        have := hall p hp0 htot
        omega
    · rw [if_neg h]
      rw [List.any_eq_true, not_exists] at h
      constructor
      · intro _ p hp htot
        have hle := hps p hp
        by_contra hne
        have hlt : p.successful_pairs < p.total_pairs := by omega
        exact h p ⟨List.mem_filter.mpr ⟨hp, by rw [decide_eq_true_eq]; exact htot⟩,
          by rw [decide_eq_true_eq]; exact hlt⟩
      · intro _; rfl

/-- Witness for C3: an all-successful throughput run and a fully connected
mesh pair both exit with code 0. -/
theorem claim_C3_exit_code_witness :
    MultiNic.bwExitCode [] = 0 ∧ Pingmesh.pmExitCode [npW] = 0 :=
  ⟨(claim_C3_exit_code [] [npW] (by decide)).1.mpr (by simp),
    (claim_C3_exit_code [] [npW] (by decide)).2.1.mpr (by decide)⟩

/-- C4 counterexample: when the ib_write_bw client command succeeds but the
retrieval of the JSON result file fails, `run_ib_client` does NOT degrade
gracefully — it returns `success = False` with an error message, so the
probe is marked failed, contrary to the claim. -/
theorem claim_C4_counterexample :
    MultiNic.run_ib_client (true, "raw output") (false, "cat: no such file")
        (true, "") =
      (false, "", "Failed to retrieve JSON results: cat: no such file")
  ∧ (MultiNic.run_ib_client (true, "raw output") (false, "cat: no such file")
        (true, "")).1 ≠ true := by
  constructor
  · rfl
  · decide

/-- C4 (amended): when the client command succeeds but the artifact (JSON
file) retrieval fails, `run_ib_client` returns failure with the message
"Failed to retrieve JSON results: ..." — the probe is marked failed, its
metrics absent; only the artifact cleanup (`rm`) outcome is ignored and can
never affect the returned triple, and the resulting `TestResult` carries
`success = false` with that error message. -/
theorem claim_C4_retrieval_marks_failed
    (client cat rm rm2 : Bool × String)
    (loads : String → Option MultiNic.Json) (ip : Bool) (idx : Nat)
    (pair : MultiNic.TestPair) (hc : client.1 = true)
    (hcat : cat.1 = false) :
    MultiNic.run_ib_client client cat rm =
      (false, "", "Failed to retrieve JSON results: " ++ cat.2)
  ∧ MultiNic.run_ib_client client cat rm =
      MultiNic.run_ib_client client cat rm2
  ∧ (MultiNic.buildResult loads ip idx pair
      (.ok false "" ("Failed to retrieve JSON results: " ++ cat.2))).success
        = false
  ∧ (MultiNic.buildResult loads ip idx pair
      (.ok false "" ("Failed to retrieve JSON results: " ++ cat.2))).error_msg
        = "Failed to retrieve JSON results: " ++ cat.2 := by
  obtain ⟨cb, cs⟩ := client
  obtain ⟨tb, ts⟩ := cat
  simp only at hc hcat
  subst hc hcat
  refine ⟨rfl, rfl, ?_, ?_⟩ <;> rfl

/-- Witness for C4 (amended) at a concrete failed retrieval. -/
theorem claim_C4_retrieval_marks_failed_witness :
    MultiNic.run_ib_client (true, "raw") (false, "no such file") (false, "x") =
      (false, "", "Failed to retrieve JSON results: no such file")
  ∧ (MultiNic.buildResult (fun _ => none) false 0 pairWd1
      (.ok false "" ("Failed to retrieve JSON results: " ++ "no such file"))).success
        = false :=
  ⟨(claim_C4_retrieval_marks_failed (true, "raw") (false, "no such file")
      (false, "x") (false, "x") (fun _ => none) false 0 pairWd1 rfl rfl).1,
    (claim_C4_retrieval_marks_failed (true, "raw") (false, "no such file")
      (false, "x") (false, "x") (fun _ => none) false 0 pairWd1 rfl rfl).2.2.1⟩

namespace MultiNic

theorem load_config_both_not_ok (c : RawBwConfig)
    (hd : c.duration.isSome = true) (hi : c.num_iters.isSome = true)
    (cfg : BwConfig) : load_config c ≠ .ok cfg := by
  unfold load_config
  cases hns : c.ns with
  | none => simp
  | some ns =>
    cases htp : c.test_pairs with
    | none => simp
    | some tps =>
      by_cases he : tps.isEmpty
      · simp [he]
      · simp [he, hd, hi]

end MultiNic

/-- C5 counterexample: with two configured pairs of which only the second
resolves, `main` exits with code 1 right after discovery — the run is
aborted, no pair is probed, even though the second pair did resolve (its
discovered `dst_ip` is shown in the second conjunct). -/
theorem claim_C5_counterexample :
    MultiNic.bwMain rawW resW (fun _ => none) (fun _ => []) =
      [MultiNic.BwEv.discovered false, MultiNic.BwEv.exited 1]
  ∧ ((MultiNic.discover_endpoints none ([rtpW1, rtpW3].map MultiNic.mkPair)
        resW).1.map (fun p => p.dst_ip))[1]? = some "10.0.0.5" := by
  constructor
  · rfl
  · rfl

/-- C5 (amended): a resolution failure for one pair makes
`discover_endpoints` report overall failure, and `main` treats that as
fatal: it exits with code 1 without probing anything — including the pairs
whose endpoints did resolve (`run_multi_nic_test` itself would skip only
the unresolved pairs, but it is never reached). -/
theorem claim_C5_resolution_failure_fatal
    (raw : MultiNic.RawBwConfig) (cfg : MultiNic.BwConfig)
    (res : Nat → MultiNic.Resolution) (loads : String → Option MultiNic.Json)
    (deliver : List MultiNic.TestPair →
      List ((Nat × MultiNic.TestPair) × MultiNic.ClientOutcome))
    (hcfg : MultiNic.load_config raw = .ok cfg)
    (hfail : (MultiNic.discover_endpoints cfg.tos
        (cfg.test_pairs.map MultiNic.mkPair) res).2 = false) :
    MultiNic.bwMain raw res loads deliver =
      [MultiNic.BwEv.discovered false, MultiNic.BwEv.exited 1] := by
  unfold MultiNic.bwMain
  rw [hcfg]
  simp [hfail]

/-- Witness for C5 (amended) at the concrete failing configuration. -/
theorem claim_C5_resolution_failure_fatal_witness :
    MultiNic.bwMain rawW resW (fun _ => none) (fun _ => []) =
      [MultiNic.BwEv.discovered false, MultiNic.BwEv.exited 1] :=
  claim_C5_resolution_failure_fatal rawW cfgW resW (fun _ => none)
    (fun _ => []) rfl rfl

/-- C6: a throughput configuration specifying both `duration` and
`num_iters` is never accepted (conjunct 1), is rejected with exactly the
mutual-exclusion `ValueError` whenever the earlier required-field checks
pass (conjunct 2), and `main` then exits 1 before any discovery or probing
(conjunct 3: the trace holds only the config-failure and exit events);
when neither is given, the accepted configuration defaults to duration
mode with duration 10 (conjunct 4). -/
theorem claim_C6_duration_iters_exclusive :
    (∀ (c : MultiNic.RawBwConfig) (cfg : MultiNic.BwConfig),
      c.duration.isSome = true → c.num_iters.isSome = true →
      MultiNic.load_config c ≠ .ok cfg)
  ∧ (∀ (c : MultiNic.RawBwConfig) (ns : String) (tps : List MultiNic.RawTestPair),
      c.ns = some ns → c.test_pairs = some tps → tps.isEmpty = false →
      c.duration.isSome = true → c.num_iters.isSome = true →
      MultiNic.load_config c =
        .error "'duration' and 'num_iters' are mutually exclusive - specify only one")
  ∧ (∀ (c : MultiNic.RawBwConfig) (res : Nat → MultiNic.Resolution)
      (loads : String → Option MultiNic.Json)
      (deliver : List MultiNic.TestPair →
        List ((Nat × MultiNic.TestPair) × MultiNic.ClientOutcome)),
      c.duration.isSome = true → c.num_iters.isSome = true →
      MultiNic.bwMain c res loads deliver =
        [MultiNic.BwEv.configFailed, MultiNic.BwEv.exited 1])
  ∧ (∀ (c : MultiNic.RawBwConfig) (cfg : MultiNic.BwConfig),
      c.duration = none → c.num_iters = none →
      MultiNic.load_config c = .ok cfg →
      cfg.duration = some 10 ∧ cfg.num_iters = none) := by
  refine ⟨fun c cfg hd hi => MultiNic.load_config_both_not_ok c hd hi cfg,
    ?_, ?_, ?_⟩
  · intro c ns tps hns htp he hd hi
    unfold MultiNic.load_config
    rw [hns, htp]
    simp [he, hd, hi]
  · intro c res loads deliver hd hi
    cases h : MultiNic.load_config c with
    | error e => simp [MultiNic.bwMain, h]
    | ok cfg => exact absurd h (MultiNic.load_config_both_not_ok c hd hi cfg)
  · intro c cfg hd hi h
    unfold MultiNic.load_config at h
    split at h
    · exact absurd h (by simp)
    · split at h
      · exact absurd h (by simp)
      · split at h
        · exact absurd h (by simp)
        · split at h
          · exact absurd h (by simp)
          · rw [Except.ok.injEq] at h
            subst h
            simp [hd, hi]

/-- Witness for C6: `rawBoth` (both fields set) aborts before discovery;
`rawW` (neither set) validates to a duration of 10. -/
theorem claim_C6_duration_iters_exclusive_witness :
    MultiNic.bwMain rawBoth resW (fun _ => none) (fun _ => []) =
      [MultiNic.BwEv.configFailed, MultiNic.BwEv.exited 1]
  ∧ cfgW.duration = some 10 ∧ cfgW.num_iters = none :=
  ⟨claim_C6_duration_iters_exclusive.2.2.1 rawBoth resW (fun _ => none)
      (fun _ => []) rfl rfl,
    claim_C6_duration_iters_exclusive.2.2.2 rawW cfgW rfl rfl rfl⟩

namespace Pingmesh

theorem runPingGo_attempts_le (oracle : Nat → Bool × String) :
    ∀ (fuel attempt : Nat) (last : String),
      (runPingGo oracle fuel attempt last).2 ≤ fuel := by
  intro fuel
  induction fuel with
  | zero => intro attempt last; simp [runPingGo]
  | succ n ih =>
    intro attempt last
    simp only [runPingGo]
    by_cases h : (oracle attempt).1 = true
    · simp [h]
    · rw [Bool.not_eq_true] at h
      simp only [h, Bool.false_eq_true, if_false]
      have := ih (attempt + 1) (oracle attempt).2
      omega

theorem runPingGo_all_fail (oracle : Nat → Bool × String) :
    ∀ (fuel attempt : Nat) (last : String), 0 < fuel →
      (∀ k, k < fuel → (oracle (attempt + k)).1 = false) →
      runPingGo oracle fuel attempt last =
        ((false, (oracle (attempt + fuel - 1)).2), fuel) := by
  intro fuel
  induction fuel with
  | zero => intro attempt last h; omega
  | succ n ih =>
    intro attempt last _ hall
    have h0 : (oracle attempt).1 = false := by
      simpa using hall 0 (by omega)
    simp only [runPingGo, h0, Bool.false_eq_true, if_false]
    cases n with
    | zero => simp [runPingGo]
    | succ m =>
      rw [ih (attempt + 1) (oracle attempt).2 (by omega)
        (fun k hk => by
          have := hall (k + 1) (by omega)
          have harith : attempt + (k + 1) = attempt + 1 + k := by omega
          rw [harith] at this
          exact this)]
      have harith2 : attempt + 1 + (m + 1) - 1 = attempt + (m + 1 + 1) - 1 := by
        omega
      rw [harith2]

theorem runPingGo_first_success (oracle : Nat → Bool × String) :
    ∀ (i fuel attempt : Nat) (last : String), i < fuel →
      (oracle (attempt + i)).1 = true →
      (∀ k, k < i → (oracle (attempt + k)).1 = false) →
      runPingGo oracle fuel attempt last =
        ((true, (oracle (attempt + i)).2), i + 1) := by
  intro i
  induction i with
  | zero =>
    intro fuel attempt last hf hs _
    cases fuel with
    | zero => omega
    | succ n =>
      rw [Nat.add_zero] at hs ⊢
      simp [runPingGo, hs]
  | succ m ih =>
    intro fuel attempt last hf hs hfail
    cases fuel with
    | zero => omega
    | succ n =>
      have h0 : (oracle attempt).1 = false := by
        simpa using hfail 0 (by omega)
      simp only [runPingGo, h0, Bool.false_eq_true, if_false]
      have harith : attempt + (m + 1) = attempt + 1 + m := by omega
      rw [harith] at hs ⊢
      rw [ih n (attempt + 1) (oracle attempt).2 (by omega) hs
        (fun k hk => by
          have := hfail (k + 1) (by omega)
          have h2 : attempt + (k + 1) = attempt + 1 + k := by omega
          rw [h2] at this
          exact this)]

end Pingmesh

/-- C7: for a retry budget `r` (default 1), `run_ping_test` performs at most
`r + 1` ping attempts (conjunct 1), returns success with the output of the
first successful attempt as soon as one succeeds within the budget, having
executed exactly `i + 1` attempts (conjunct 2), and declares the sub-probe
failed with the last attempt output exactly when all `r + 1` attempts
fail, having used the whole budget (conjunct 3); the default budget is 1
(conjunct 4), so two consecutive failed attempts record a failure. -/
theorem claim_C7_retry_budget :
    (∀ (oracle : Nat → Bool × String) (r : Nat),
      Pingmesh.runPingAttempts oracle r ≤ r + 1)
  ∧ (∀ (oracle : Nat → Bool × String) (r i : Nat), i ≤ r →
      (oracle i).1 = true → (∀ k, k < i → (oracle k).1 = false) →
      Pingmesh.run_ping_test oracle r = (true, (oracle i).2)
      ∧ Pingmesh.runPingAttempts oracle r = i + 1)
  ∧ (∀ (oracle : Nat → Bool × String) (r : Nat),
      (∀ k, k ≤ r → (oracle k).1 = false) →
      Pingmesh.run_ping_test oracle r = (false, (oracle r).2)
      ∧ Pingmesh.runPingAttempts oracle r = r + 1)
  ∧ Pingmesh.defaultRetries = 1 := by
  refine ⟨?_, ?_, ?_, rfl⟩
  · intro oracle r
    exact Pingmesh.runPingGo_attempts_le oracle (r + 1) 0 ""
  · intro oracle r i hir hs hfail
    have h := Pingmesh.runPingGo_first_success oracle i (r + 1) 0 ""
      (by omega) (by simpa using hs) (fun k hk => by simpa using hfail k hk)
    unfold Pingmesh.run_ping_test Pingmesh.runPingAttempts
    rw [h]
    simp
  · intro oracle r hall
    have h := Pingmesh.runPingGo_all_fail oracle (r + 1) 0 "" (by omega)
      (fun k hk => by simpa using hall k (by omega))
    unfold Pingmesh.run_ping_test Pingmesh.runPingAttempts
    rw [h]
    simp

/-- Witness for C7: with the default budget of 1 retry, an oracle whose
attempts all fail yields a failed sub-probe after exactly two attempts. -/
theorem claim_C7_retry_budget_witness :
    Pingmesh.run_ping_test oracW Pingmesh.defaultRetries = (false, "timeout")
  ∧ Pingmesh.runPingAttempts oracW Pingmesh.defaultRetries = 2 :=
  ⟨(claim_C7_retry_budget.2.2.1 oracW Pingmesh.defaultRetries
      (fun _ _ => rfl)).1,
    (claim_C7_retry_budget.2.2.1 oracW Pingmesh.defaultRetries
      (fun _ _ => rfl)).2⟩

/-- C8 (code bug evidence): at 9999999 successes out of 10000000 attempts
the percentage is 99.99999, strictly below 100, yet the displayed value of
the source (`f"{pct:.4f}"`, which ROUNDS to four decimals) equals exactly
100 — indistinguishable from a perfect run — whereas the truncation claimed
by the adjacent source comment ("truncate don't round") would display
99.9999.  The code therefore contradicts its own comment and the spec. -/
theorem claim_C8_pct_rounds_not_truncates :
    Pingmesh.summaryPct 9999999 10000000 ≠ 100
  ∧ Pingmesh.summaryPct 9999999 10000000 < 100
  ∧ Pingmesh.fmtRounded4 (Pingmesh.summaryPct 9999999 10000000) = 100
  ∧ Pingmesh.fmtTruncated4 (Pingmesh.summaryPct 9999999 10000000) =
      999999 / 10000
  ∧ Pingmesh.fmtTruncated4 (Pingmesh.summaryPct 9999999 10000000) ≠ 100
  ∧ Pingmesh.fmtRounded4 (Pingmesh.summaryPct 9999999 10000000) =
      Pingmesh.fmtRounded4 100 := by
  have hpct : Pingmesh.summaryPct 9999999 10000000 = 9999999 / 100000 := by
    unfold Pingmesh.summaryPct
    norm_num
  have hfloor : ⌊(9999999 / 100000 : ℚ) * 10000⌋ = 999999 := by
    rw [Int.floor_eq_iff]
    constructor <;> norm_num
  have hround : round ((9999999 / 100000 : ℚ) * 10000) = 1000000 := by
    rw [round_eq, Int.floor_eq_iff]
    constructor <;> norm_num
  refine ⟨by rw [hpct]; norm_num, by rw [hpct]; norm_num, ?_, ?_, ?_, ?_⟩
  · unfold Pingmesh.fmtRounded4
    rw [hpct, hround]
    norm_num
  · unfold Pingmesh.fmtTruncated4
    rw [hpct, hfloor]
    norm_num
  · unfold Pingmesh.fmtTruncated4
    rw [hpct, hfloor]
    norm_num
  · unfold Pingmesh.fmtRounded4
    rw [hpct, hround]
    norm_num [round_eq]

theorem assocGet_map_self {α β : Type} [DecidableEq α] (g : α → β) :
    ∀ (l : List α) (k : α), k ∈ l →
      assocGet (l.map (fun x => (x, g x))) k = some (g k) := by
  intro l
  induction l with
  | nil => intro k hk; cases hk
  | cons x rest ih =>
    intro k hk
    simp only [List.map_cons, assocGet]
    by_cases hx : x = k
    · rw [if_pos hx, hx]
    · rw [if_neg hx]
      rcases List.mem_cons.mp hk with h | h
    
      · exact absurd h.symm hx
      · exact ih k h

namespace Pingmesh

theorem assocGet_updateResults_ne
    (k0 k : String × String) (f : NodePairResult → NodePairResult)
    (h : k0 ≠ k) :
    ∀ rs : List ((String × String) × NodePairResult),
      assocGet (updateResults rs k0 f) k = assocGet rs k := by
  intro rs
  induction rs with
  | nil => rfl
  | cons kv rest ih =>
    simp only [updateResults, List.map_cons] at ih ⊢
    by_cases h1 : kv.1 = k0
    · rw [if_pos h1]
      show assocGet ((kv.1, f kv.2) :: _) k = assocGet (kv :: rest) k
      obtain ⟨kk, kr⟩ := kv
      simp only at h1
      simp only [assocGet]
      by_cases h2 : kk = k
      · exact absurd (h1 ▸ h2 : k0 = k) h
      · rw [if_neg h2, if_neg h2]
        exact ih
    · rw [if_neg h1]
      obtain ⟨kk, kr⟩ := kv
      simp only [assocGet]
      by_cases h2 : kk = k
      · rw [if_pos h2, if_pos h2]
      · rw [if_neg h2, if_neg h2]
        exact ih

theorem assocGet_applyCompletion_ne
    (rs : List ((String × String) × NodePairResult)) (t : PingTask)
    (o : TaskOutcome) (k : String × String) (h : taskKey t ≠ k) :
    assocGet (applyCompletion rs t o) k = assocGet rs k :=
  assocGet_updateResults_ne (taskKey t) k _ h rs

theorem assocGet_accumulate_ne (k : String × String) :
    ∀ (completions : List (PingTask × TaskOutcome))
      (init : List ((String × String) × NodePairResult)),
      (∀ c ∈ completions, taskKey c.1 ≠ k) →
      assocGet (completions.foldl
        (fun rs c => applyCompletion rs c.1 c.2) init) k = assocGet init k := by
  intro completions
  induction completions with
  | nil => intro init _; rfl
  | cons c rest ih =>
    intro init h
    simp only [List.foldl_cons]
    rw [ih _ (fun c2 hc2 => h c2 (List.mem_cons_of_mem _ hc2))]
    exact assocGet_applyCompletion_ne init c.1 c.2 k (h c (List.mem_cons_self _ _))

end Pingmesh

/-- C9 counterexample: a target pair with zero sub-probes (no resolved
adapter IPs at all) is rendered in the matrix as "0/0" (dim), not as "N/A"
as claimed — every configured entity pair is initialized in the results
mapping, so the "N/A" branch is unreachable for configured entities. -/
theorem claim_C9_counterexample :
    Pingmesh.matrixCell (Pingmesh.run_pingmesh_tests ["nodeA", "nodeB"] [])
        "nodeA" "nodeB" = ("0/0", "dim")
  ∧ (Pingmesh.matrixCell (Pingmesh.run_pingmesh_tests ["nodeA", "nodeB"] [])
        "nodeA" "nodeB").1 ≠ "N/A" := by
  constructor
  · rfl
  · decide

/-- C9 (amended): a target pair for which zero sub-probes ran ends with a
tally of 0 attempted / 0 succeeded, is rendered in the matrix as "0/0" in
dim style (the "N/A" rendering occurs only for a pair key absent from the
results mapping, which cannot happen for configured entities), and is
classified as neither fully connected, partially connected, nor
disconnected in the summary counts. -/
theorem claim_C9_zero_subprobe_pair (entities : List String)
    (completions : List (Pingmesh.PingTask × Pingmesh.TaskOutcome))
    (a b : String) (hab : a ≠ b)
    (hmem : (a, b) ∈ Pingmesh.combinations2 entities)
    (hnone : ∀ c ∈ completions, Pingmesh.taskKey c.1 ≠ (a, b)) :
    assocGet (Pingmesh.run_pingmesh_tests entities completions) (a, b) =
      some { src_node := a, dst_node := b, total_pairs := 0,
             successful_pairs := 0, failed_tests := [] }
  ∧ Pingmesh.matrixCell (Pingmesh.run_pingmesh_tests entities completions) a b
      = ("0/0", "dim")
  ∧ (∀ (rs1 rs2 : List Pingmesh.NodePairResult) (r : Pingmesh.NodePairResult),
      r.total_pairs = 0 →
      Pingmesh.summaryCounts (rs1 ++ r :: rs2) =
        Pingmesh.summaryCounts (rs1 ++ rs2)) := by
  have h1 : assocGet (Pingmesh.run_pingmesh_tests entities completions) (a, b) =
      some { src_node := a, dst_node := b, total_pairs := 0,
             successful_pairs := 0, failed_tests := [] } := by
    unfold Pingmesh.run_pingmesh_tests
    rw [Pingmesh.assocGet_accumulate_ne (a, b) completions _ hnone]
    unfold Pingmesh.initResults
    exact assocGet_map_self _ (Pingmesh.combinations2 entities) (a, b) hmem
  refine ⟨h1, ?_, ?_⟩
  · unfold Pingmesh.matrixCell Pingmesh.get_pair_result
    rw [if_neg hab, h1]
    show (toString (0 : Nat) ++ "/" ++ toString (0 : Nat),
      ("dim" : String)) = ("0/0", "dim")
    rfl
  · intro rs1 rs2 r hr
    unfold Pingmesh.summaryCounts
    rw [List.foldl_append, List.foldl_append, List.foldl_cons]
    congr 1
    simp [hr]

/-- Witness for C9 (amended) at two configured entities with no resolved
IPs: the tally stays 0/0 and renders as a dim "0/0" cell. -/
theorem claim_C9_zero_subprobe_pair_witness :
    assocGet (Pingmesh.run_pingmesh_tests ["nodeA", "nodeB"] [])
        ("nodeA", "nodeB") =
      some { src_node := "nodeA", dst_node := "nodeB", total_pairs := 0,
             successful_pairs := 0, failed_tests := [] }
  ∧ Pingmesh.matrixCell (Pingmesh.run_pingmesh_tests ["nodeA", "nodeB"] [])
        "nodeA" "nodeB" = ("0/0", "dim") :=
  ⟨(claim_C9_zero_subprobe_pair ["nodeA", "nodeB"] [] "nodeA" "nodeB"
      (by decide) (by decide) (fun c hc => absurd hc (List.not_mem_nil c))).1,
    (claim_C9_zero_subprobe_pair ["nodeA", "nodeB"] [] "nodeA" "nodeB"
      (by decide) (by decide) (fun c hc => absurd hc (List.not_mem_nil c))).2.1⟩

/-- C10: when the initiator command succeeds with non-empty output but the
artifact content is not valid JSON (conjunct 1) or its `BW_average` field is
non-numeric (conjunct 2), `parse_ib_json_result` yields `(0.0, None)`; the
probe result is then still marked `success = True` with `bw_avg_gbps = 0`
(conjunct 3), and such a result is counted among the successful pairs of the
aggregate while contributing 0 to the summed bandwidth, thereby lowering the
per-NIC average (conjunct 4). -/
theorem claim_C10_unparsable_artifact_counts_success :
    (∀ ip : Bool, MultiNic.parse_ib_json_result none ip = .ok (0, none))
  ∧ (∀ (kvs rkvs : List (String × MultiNic.Json)) (v : MultiNic.Json)
      (ip : Bool),
      MultiNic.jsonGet kvs "results" (.obj []) = .obj rkvs →
      MultiNic.jsonGet rkvs "BW_average" (.num 0) = v →
      MultiNic.pyFloat v = none →
      MultiNic.parse_ib_json_result (some (.obj kvs)) ip = .ok (0, none))
  ∧ (∀ (loads : String → Option MultiNic.Json) (ip : Bool) (idx : Nat)
      (pair : MultiNic.TestPair) (s : String), s ≠ "" →
      MultiNic.parse_ib_json_result (loads s) ip = .ok (0, none) →
      (MultiNic.buildResult loads ip idx pair (.ok true s "")).success = true
      ∧ (MultiNic.buildResult loads ip idx pair (.ok true s "")).bw_avg_gbps = 0
      ∧ (MultiNic.buildResult loads ip idx pair (.ok true s "")).bw_peak_gbps
          = none)
  ∧ (∀ (rs : List MultiNic.TestResult) (r : MultiNic.TestResult),
      r.success = true →
      (MultiNic.successfulTests (rs ++ [r])).length =
        (MultiNic.successfulTests rs).length + 1
      ∧ MultiNic.totalAvgBw (rs ++ [r]) =
        MultiNic.totalAvgBw rs + r.bw_avg_gbps) := by
  refine ⟨fun ip => rfl, ?_, ?_, ?_⟩
  · intro kvs rkvs v ip h1 h2 h3
    unfold MultiNic.parse_ib_json_result
    simp only [h1]
    rw [h2, h3]
  · intro loads ip idx pair s hs hparse
    unfold MultiNic.buildResult
    simp only [hs, hparse, ne_eq, not_false_eq_true, decide_True, Bool.and_self,
      if_true]
    refine ⟨?_, ?_, ?_⟩ <;> trivial
  · intro rs r hsucc
    unfold MultiNic.successfulTests MultiNic.totalAvgBw
    rw [List.filter_append]
    constructor
    · simp [MultiNic.successfulTests, hsucc]
    · simp [MultiNic.successfulTests, hsucc, List.filter_append]

/-- Witness for C10: an artifact that fails JSON decoding still produces a
successful zero-bandwidth result that raises the successful-pair count. -/
theorem claim_C10_unparsable_artifact_counts_success_witness :
    (MultiNic.buildResult (fun _ => none) false 0 pairWd1
      (.ok true "not json" "")).success = true
  ∧ (MultiNic.buildResult (fun _ => none) false 0 pairWd1
      (.ok true "not json" "")).bw_avg_gbps = 0
  ∧ MultiNic.parse_ib_json_result none false = .ok (0, none)
  ∧ (MultiNic.successfulTests
      ([] ++ [MultiNic.buildResult (fun _ => none) false 0 pairWd1
        (.ok true "not json" "")])).length =
      (MultiNic.successfulTests []).length + 1 := by
  have hb := claim_C10_unparsable_artifact_counts_success.2.2.1
    (fun _ => none) false 0 pairWd1 "not json" (by decide)
    (claim_C10_unparsable_artifact_counts_success.1 false)
  refine ⟨hb.1, hb.2.1, claim_C10_unparsable_artifact_counts_success.1 false, ?_⟩
  exact (claim_C10_unparsable_artifact_counts_success.2.2.2 []
    (MultiNic.buildResult (fun _ => none) false 0 pairWd1
      (.ok true "not json" "")) hb.1).1
